import Mathlib

/-!
Shallow embedding of the clustering-and-matching core of the
`recurve-methods/comparison_groups` repository
(`gridmeter/gridmeter/_clustering/cluster.py` and collaborators).

Conventions of the embedding:
* pandas/numpy data is modelled with plain lists: a feature matrix is a
  `List (List ℚ)` of rows, a label vector is a `List ℤ` (the scikit-learn
  labels are machine ints, `-1` is the outlier sentinel), an id-indexed
  frame is a `List (id × row)`.
* floating-point scores are modelled as rationals `ℚ`; the claims under
  study only compare scores, they never rely on rounding.
* a Python generator together with the exceptions it can raise is modelled
  as `Except String (List _)`: the error carries the exception message.
* the modules `scoring.py`, `bounds.py`, `bisect_k_means.py`,
  `settings.py` and `transform.py` are not part of the source tree under
  study; the definitions taken from them are marked `Modelled from the
  spec:` in their doc comment, or are taken as explicit function
  parameters when the spec leaves them opaque (the score function, the
  bisecting k-means label dictionary, the bounds formula, the initial
  pool loadshape transform, the aggregation dispatch).
-/

/-- Feature matrix rows (`np.ndarray` of shape (n, d)). -/
abbrev DataMatrix := List (List ℚ)

/-- Result of the upstream functional-PCA feature transform
(`transform.InitialPoolLoadshapeTransform`).  Modelled from the spec: the
module `_clustering/transform.py` is not under `src/`; per §6 of the spec it
is an opaque numeric matrix indexed by pool meter id plus an optional error
flag (`err_msg`), together with the concatenated raw loadshapes used later
for aggregation. -/
structure InitialPoolLoadshapeTransform where
  err_msg : Option String
  fpca_result : List (Nat × List ℚ)
  concatenated_loadshapes : List (Nat × List ℚ)
deriving Repr, DecidableEq

/-- Modelled from the spec: `_scoring.get_max_score_from_system_size` is not
under `src/`; per §9 of the spec it is a named sentinel constant whose value
ranks worse than any computable score. -/
def get_max_score_from_system_size : ℚ := 10 ^ 12

/-- Modelled from the spec: `_scoring.merge_small_clusters` is not under
`src/`.  Per §2 ("merges clusters smaller than the minimum size into an
outlier bucket, renumbers surviving clusters contiguously"), §4.4 and the
renumbering invariant of §8, every cluster whose member count is below
`min_cluster_size` is reassigned to the sentinel `-1` and the surviving
clusters are renumbered contiguously from `0`, in ascending order of their
old ids (the order `np.unique` produces). -/
def merge_small_clusters (clusters : List ℤ) (min_cluster_size : ℕ) : List ℤ :=
  clusters.map fun c =>
    if clusters.count c < min_cluster_size then -1
    else
      ((clusters.dedup.filter fun d =>
        decide (min_cluster_size ≤ clusters.count d ∧ d < c)).length : ℤ)

/-- Embedding of `cluster._final_cluster_renumber`: merge undersized
clusters, then add 1 so valid clusters are `1 → max_cluster_num` and the
outlier sentinel `-1` becomes `0`. -/
def _final_cluster_renumber (clusters : List ℤ) (min_cluster_size : ℕ) : List ℤ :=
  (merge_small_clusters clusters min_cluster_size).map (· + 1)

/-- Embedding of `cluster._LabelResult`. -/
structure _LabelResult where
  labels : List ℤ
  score : ℚ
  score_unable_to_be_calculated : Bool
  n_clusters : ℕ
deriving Repr, DecidableEq

/-- Embedding of `cluster.ClusterResultIntermediate` (the attrs dataclass).
`cluster_df` is the meter id → cluster id table. -/
structure ClusterResultIntermediate where
  n_clusters : ℕ
  score : ℚ
  labels : List ℤ
  cluster_df : List (Nat × ℤ)
  score_unable_to_be_calculated : Bool
  pool_loadshape_transform_result : InitialPoolLoadshapeTransform
  cluster_key : String
  seed : ℤ
deriving Repr, DecidableEq

/-- Embedding of `cluster.ClusterScoreElement`. -/
structure ClusterScoreElement where
  iteration : ℕ
  seed : ℤ
  n_clusters : ℕ
  score : ℚ
  score_unable_to_be_calculated : Bool
deriving Repr, DecidableEq

/-- Embedding of the body of the `for` loop of
`cluster._iterate_best_found_cluster`: how the running best is updated by
one more candidate. -/
def bestStep (b r : ClusterResultIntermediate) : ClusterResultIntermediate :=
  if b.score_unable_to_be_calculated ∧ ¬ r.score_unable_to_be_calculated then r
  else if r.score_unable_to_be_calculated then b
  else if b.score > r.score then r
  else b

/-- Embedding of `cluster._iterate_best_found_cluster`: fold `bestStep` over
the candidates (the first candidate initialises the running best), raising
`ValueError` when the iterable was empty. -/
def _iterate_best_found_cluster (cluster_results : List ClusterResultIntermediate) :
    Except String ClusterResultIntermediate :=
  match cluster_results with
  | [] => Except.error ("best scored cluster is None")
  | x :: xs => Except.ok (xs.foldl bestStep x)

/-- Type of the `labels_full` dictionary computation of the overridden
`bisect_k_means.BisectingKMeans` (module not under `src/`): a function of
the data, the target cluster count and the seed, returning the map
cluster count → label vector as an association list in insertion order. -/
abbrev KMeansLabels := DataMatrix → ℕ → ℤ → List (ℕ × List ℤ)

/-- Type of `_scoring.score_clusters` (module not under `src/`): data,
labels, score_choice, dist_metric, min_cluster_size, cluster_bound_lower,
max_non_outlier_cluster_count → (score, score_unable_to_be_calculated). -/
abbrev ScoreClusters := DataMatrix → List ℤ → String → String → ℕ → ℕ → ℕ → ℚ × Bool

/-- Type of `_bounds.get_cluster_bounds` (module not under `src/`): data,
min_cluster_size, num_cluster_bound_upper, num_cluster_bound_lower →
(cluster_bound_lower, cluster_bound_upper). -/
abbrev GetClusterBounds := DataMatrix → ℕ → ℕ → ℕ → ℕ × ℕ

/-- Embedding of `fpca_result.unstack().to_numpy()`: the id-indexed frame
becomes the matrix of its rows. -/
def unstack_fpca (fpca_result : List (Nat × List ℚ)) : DataMatrix :=
  fpca_result.map Prod.snd

/-- Embedding of `cluster._get_bisecting_kmeans_cluster_label_dict`.
Modelled from the spec: `bisect_k_means.py` is not under `src/`; per §4.2
the generator is driven by a single seed, so `labels_full` is a
deterministic function of `(data, n_clusters, seed)`, supplied here as the
parameter `kmeans_labels_full`. -/
def _get_bisecting_kmeans_cluster_label_dict (kmeans_labels_full : KMeansLabels)
    (data : DataMatrix) (n_clusters : ℕ) (seed : ℤ) : List (ℕ × List ℤ) :=
  kmeans_labels_full data n_clusters seed

/-- Embedding of `cluster._get_all_label_results`: degenerate bounds yield
no candidates; otherwise one bisecting run produces the label dictionary,
every count at least `cluster_bound_lower` is scored and renumbered. -/
def _get_all_label_results (score_clusters : ScoreClusters)
    (kmeans_labels_full : KMeansLabels) (data : DataMatrix)
    (n_cluster_upper : ℕ) (cluster_bound_lower : ℕ) (score_choice : String)
    (dist_metric : String) (min_cluster_size : ℕ) (seed : ℤ)
    (max_non_outlier_cluster_count : ℕ) : List _LabelResult :=
  if n_cluster_upper < 2 then []
  else if n_cluster_upper > data.length then []
  else if data.length = 0 then []
  else
    let labels_dict := _get_bisecting_kmeans_cluster_label_dict kmeans_labels_full
      data n_cluster_upper seed
    (labels_dict.filter fun p => decide (cluster_bound_lower ≤ p.1)).map fun p =>
      let sc := score_clusters data p.2 score_choice dist_metric min_cluster_size
        cluster_bound_lower max_non_outlier_cluster_count
      { labels := _final_cluster_renumber p.2 min_cluster_size
        score := sc.1
        score_unable_to_be_calculated := sc.2
        n_clusters := p.1 }

/-- Embedding of `cluster._create_cluster_dataframe`: pair the pool ids with
the cluster labels and sort by cluster id (a stable sort; the claims under
study do not depend on the tie order of `pandas.sort_values`). -/
def _create_cluster_dataframe (df_cp : List (Nat × List ℚ)) (clusters : List ℤ) :
    List (Nat × ℤ) :=
  List.insertionSort (fun a b => a.2 ≤ b.2) ((df_cp.map Prod.fst).zip clusters)

/-- Embedding of
`ClusterResultIntermediate.from_label_result_and_pool_loadshape_transform_result`,
including the programmer-error `ValueError` raised when the transform
carries an error flag. -/
def ClusterResultIntermediate.from_label_result_and_pool_loadshape_transform_result
    (label_result : _LabelResult)
    (pool_loadshape_transform_result : InitialPoolLoadshapeTransform)
    (cluster_key : String) (seed : ℤ) : Except String ClusterResultIntermediate :=
  if pool_loadshape_transform_result.err_msg ≠ none then
    Except.error ("programmer error. this check should be done before calculating all label results")
  else
    let cluster_df :=
      if ¬ label_result.score_unable_to_be_calculated then
        _create_cluster_dataframe pool_loadshape_transform_result.fpca_result
          label_result.labels
      else []
    Except.ok
      { n_clusters := label_result.n_clusters
        labels := label_result.labels
        cluster_df := cluster_df
        cluster_key := cluster_key
        score := label_result.score
        pool_loadshape_transform_result := pool_loadshape_transform_result
        score_unable_to_be_calculated := label_result.score_unable_to_be_calculated
        seed := seed }

/-- Embedding of the final `for` loop of
`get_cluster_result_generator_from_upper_bound_n_cluster`: package every
label result, propagating the first raised exception. -/
def build_cluster_results (pool_loadshape_transform_result : InitialPoolLoadshapeTransform)
    (cluster_key : String) (seed : ℤ) :
    List _LabelResult → Except String (List ClusterResultIntermediate)
  | [] => Except.ok []
  | lr :: rest =>
    match ClusterResultIntermediate.from_label_result_and_pool_loadshape_transform_result
        lr pool_loadshape_transform_result cluster_key seed with
    | Except.error e => Except.error e
    | Except.ok c =>
      match build_cluster_results pool_loadshape_transform_result cluster_key seed rest with
      | Except.error e => Except.error e
      | Except.ok cs => Except.ok (c :: cs)

/-- Embedding of `cluster.get_cluster_result_generator_from_upper_bound_n_cluster`.
The source is a Python generator: the `err_msg` branch yields a sentinel
and then falls through (there is no `return` after the yield), the empty
`label_results` branch yields a second sentinel, and the final loop yields
the packaged results; a generator that raises is modelled as
`Except.error`. -/
def get_cluster_result_generator_from_upper_bound_n_cluster
    (score_clusters : ScoreClusters) (kmeans_labels_full : KMeansLabels)
    (pool_loadshape_transform_result : InitialPoolLoadshapeTransform)
    (upper_bound_n_cluster : ℕ) (cluster_bound_lower : ℕ) (score_choice : String)
    (dist_metric : String) (min_cluster_size : ℕ) (cluster_key : String)
    (data? : Option DataMatrix) (seed : ℤ) (max_non_outlier_cluster_count : ℕ) :
    Except String (List ClusterResultIntermediate) :=
  let err_sentinel : List ClusterResultIntermediate :=
    if pool_loadshape_transform_result.err_msg ≠ none then
      [{ n_clusters := upper_bound_n_cluster
         cluster_key := cluster_key
         cluster_df := []
         labels := []
         pool_loadshape_transform_result := pool_loadshape_transform_result
         score := get_max_score_from_system_size
         score_unable_to_be_calculated := true
         seed := seed }]
    else []
  let data := data?.getD (unstack_fpca pool_loadshape_transform_result.fpca_result)
  let label_results := _get_all_label_results score_clusters kmeans_labels_full data
    upper_bound_n_cluster cluster_bound_lower score_choice dist_metric
    min_cluster_size seed max_non_outlier_cluster_count
  let empty_sentinel : List ClusterResultIntermediate :=
    if label_results.length = 0 then
      [{ n_clusters := upper_bound_n_cluster
         cluster_key := cluster_key
         cluster_df := []
         labels := []
         pool_loadshape_transform_result := pool_loadshape_transform_result
         score := get_max_score_from_system_size
         score_unable_to_be_calculated := true
         seed := seed }]
    else []
  match build_cluster_results pool_loadshape_transform_result cluster_key seed label_results with
  | Except.error e => Except.error e
  | Except.ok rest => Except.ok (err_sentinel ++ empty_sentinel ++ rest)

/-- Embedding of the loop body sequence of
`cluster._get_all_cluster_result_generator`, recursing over the remaining
`seed_inc` values of `range(n_iter_cluster)`. -/
def run_seed_iterations (score_clusters : ScoreClusters)
    (kmeans_labels_full : KMeansLabels)
    (pool_loadshape_transform_result : InitialPoolLoadshapeTransform)
    (upper_bound_n_cluster : ℕ) (cluster_bound_lower : ℕ) (score_choice : String)
    (dist_metric : String) (min_cluster_size : ℕ) (cluster_key : String)
    (data? : Option DataMatrix) (seed : ℤ) (max_non_outlier_cluster_count : ℕ) :
    List ℕ → Except String (List (ClusterResultIntermediate × ClusterScoreElement))
  | [] => Except.ok []
  | seed_inc :: rest =>
    let incremented_seed := seed + seed_inc
    match get_cluster_result_generator_from_upper_bound_n_cluster score_clusters
        kmeans_labels_full pool_loadshape_transform_result upper_bound_n_cluster
        cluster_bound_lower score_choice dist_metric min_cluster_size cluster_key
        data? incremented_seed max_non_outlier_cluster_count with
    | Except.error e => Except.error e
    | Except.ok cluster_results =>
      match _iterate_best_found_cluster cluster_results with
      | Except.error e => Except.error e
      | Except.ok best_scored_cluster_for_seed =>
        let cluster_score_element : ClusterScoreElement :=
          { iteration := seed_inc + 1
            n_clusters := best_scored_cluster_for_seed.n_clusters
            score := best_scored_cluster_for_seed.score
            score_unable_to_be_calculated :=
              best_scored_cluster_for_seed.score_unable_to_be_calculated
            seed := incremented_seed }
        match run_seed_iterations score_clusters kmeans_labels_full
            pool_loadshape_transform_result upper_bound_n_cluster
            cluster_bound_lower score_choice dist_metric min_cluster_size
            cluster_key data? seed max_non_outlier_cluster_count rest with
        | Except.error e => Except.error e
        | Except.ok tail =>
          Except.ok ((best_scored_cluster_for_seed, cluster_score_element) :: tail)

/-- Embedding of `cluster._get_all_cluster_result_generator`: one best
result and one score element per `seed_inc` in `range(n_iter_cluster)`. -/
def _get_all_cluster_result_generator (score_clusters : ScoreClusters)
    (kmeans_labels_full : KMeansLabels)
    (pool_loadshape_transform_result : InitialPoolLoadshapeTransform)
    (upper_bound_n_cluster : ℕ) (cluster_bound_lower : ℕ) (score_choice : String)
    (dist_metric : String) (min_cluster_size : ℕ) (cluster_key : String)
    (data? : Option DataMatrix) (seed : ℤ) (n_iter_cluster : ℕ)
    (max_non_outlier_cluster_count : ℕ) :
    Except String (List (ClusterResultIntermediate × ClusterScoreElement)) :=
  run_seed_iterations score_clusters kmeans_labels_full
    pool_loadshape_transform_result upper_bound_n_cluster cluster_bound_lower
    score_choice dist_metric min_cluster_size cluster_key data? seed
    max_non_outlier_cluster_count (List.range n_iter_cluster)

/-- Embedding of the running-best update of
`cluster.get_best_scored_cluster_result`: the first result initialises the
running best, every later one is compared through
`_iterate_best_found_cluster` on the two-element list, exactly as the
source loop does. -/
def running_best (acc : Option ClusterResultIntermediate)
    (pr : ClusterResultIntermediate × ClusterScoreElement) :
    Option ClusterResultIntermediate :=
  match acc with
  | none => some pr.1
  | some b => (_iterate_best_found_cluster [b, pr.1]).toOption

/-- Embedding of `cluster.get_best_scored_cluster_result`: compute bounds,
run the multi-seed generator, collect every score element, and keep the
running best via `_iterate_best_found_cluster` on the two-element list. -/
def get_best_scored_cluster_result (score_clusters : ScoreClusters)
    (kmeans_labels_full : KMeansLabels) (get_cluster_bounds : GetClusterBounds)
    (pool_loadshape_transform_result : InitialPoolLoadshapeTransform)
    (min_cluster_size : ℕ) (num_cluster_bound_upper : ℕ)
    (num_cluster_bound_lower : ℕ) (score_choice : String) (dist_metric : String)
    (cluster_key : String) (seed : ℤ) (n_iter_cluster : ℕ)
    (max_non_outlier_cluster_count : ℕ) :
    Except String (ClusterResultIntermediate × List ClusterScoreElement) :=
  let data := unstack_fpca pool_loadshape_transform_result.fpca_result
  let bounds := get_cluster_bounds data min_cluster_size num_cluster_bound_upper
    num_cluster_bound_lower
  match _get_all_cluster_result_generator score_clusters kmeans_labels_full
      pool_loadshape_transform_result bounds.2 bounds.1 score_choice dist_metric
      min_cluster_size cluster_key (some data) seed n_iter_cluster
      max_non_outlier_cluster_count with
  | Except.error e => Except.error e
  | Except.ok pairs =>
    let best := pairs.foldl running_best none
    match best with
    | none => Except.error ("best_scored_cluster is None. This should only ever occur if somehow no clustering was performed. Likely settings/logic error.")
    | some b => Except.ok (b, pairs.map Prod.snd)

/-- Embedding of the join-and-stack step of `cluster._get_cluster_ls`: join
the cluster table with the pool loadshapes on id and explode to
(cluster, hour) → value rows (`stack()` drops meters without a joined
loadshape). -/
def cluster_ls_rows (df_cp_ls : List (Nat × List ℚ))
    (cluster_df : List (Nat × ℤ)) : List ((ℤ × ℕ) × ℚ) :=
  cluster_df.flatMap fun p =>
    match df_cp_ls.find? (fun q => q.1 == p.1) with
    | none => []
    | some q => q.2.enum.map fun hv => ((p.2, hv.1), hv.2)

/-- Embedding of `cluster._get_cluster_ls`: aggregate the joined rows per
(cluster, hour) group and drop the outlier cluster (the `> 0` filter with
the comment "don't match to outlier cluster"); the aggregation chosen by
`agg_type` is the opaque parameter `agg`. -/
def _get_cluster_ls (df_cp_ls : List (Nat × List ℚ)) (cluster_df : List (Nat × ℤ))
    (agg : List ℚ → ℚ) : List ((ℤ × ℕ) × ℚ) :=
  let rows := cluster_ls_rows df_cp_ls cluster_df
  let keys := (rows.map Prod.fst).dedup
  let grouped := keys.map fun k =>
    (k, agg ((rows.filter fun r => r.1 == k).map Prod.snd))
  grouped.filter fun g => decide (0 < g.1.1)

/-- Modelled from the spec:
`_transform.get_min_maxed_normalized_unstacked_ls_df` is not under `src/`;
per §4.7 each load shape is rescaled to the fixed range 0–1 independently
(non-finite values do not arise over `ℚ`; a constant shape maps to 0). -/
def get_min_maxed_normalized_unstacked_ls_df (xs : List ℚ) : List ℚ :=
  match xs with
  | [] => []
  | y :: ys =>
    let mn := ys.foldl min y
    let mx := ys.foldl max y
    if mx = mn then xs.map fun _ => 0
    else xs.map fun x => (x - mn) / (mx - mn)

/-- Embedding of `cluster._transform_cluster_loadshape`: shape-normalize the
representative load shape of each cluster independently. -/
def _transform_cluster_loadshape (df_ls_cluster : List ((ℤ × ℕ) × ℚ)) :
    List ((ℤ × ℕ) × ℚ) :=
  let all_ids := (df_ls_cluster.map fun r => r.1.1).dedup
  all_ids.flatMap fun c =>
    let grp := df_ls_cluster.filter fun r => r.1.1 == c
    let normed := get_min_maxed_normalized_unstacked_ls_df (grp.map Prod.snd)
    ((grp.map fun r => r.1.2).zip normed).map fun hv => ((c, hv.1), hv.2)

/-- Modelled from the spec: `settings.py` is not under `src/`; per §6 these
are the recognized configuration options (plus the fpca variance ratio
passed to the initial transform). -/
structure Settings where
  min_cluster_size : ℕ
  num_cluster_bound_lower : ℕ
  num_cluster_bound_upper : ℕ
  score_choice : String
  dist_metric : String
  agg_type : String
  seed : ℤ
  n_iter_cluster : ℕ
  max_non_outlier_cluster_count : ℕ
  fpca_min_variance_ratio : ℚ
deriving Repr, DecidableEq

/-- Embedding of `cluster.ClusterResult` (the attrs dataclass). -/
structure ClusterResult where
  cluster_key : String
  cluster_loadshape_transformed_df : List ((ℤ × ℕ) × ℚ)
  cluster_df : List (Nat × ℤ)
  n_clusters : ℕ
  score : ℚ
  score_unable_to_be_calculated : Bool
  seed : ℤ
  iter_scores : List ClusterScoreElement
  agg_type : String
  dist_metric : String
deriving Repr, DecidableEq

/-- Embedding of `ClusterResult.from_cluster_result_and_agg_type`: an
unavailable best yields a result with empty tables, otherwise the cluster
load shapes are aggregated and normalized.  `aggOf` is the pandas `agg`
dispatch on the `agg_type` name. -/
def ClusterResult.from_cluster_result_and_agg_type (aggOf : String → List ℚ → ℚ)
    (cluster_result : ClusterResultIntermediate)
    (score_elements : List ClusterScoreElement) (agg_type : String)
    (dist_metric : String) : ClusterResult :=
  if cluster_result.score_unable_to_be_calculated then
    { cluster_key := cluster_result.cluster_key
      cluster_df := []
      cluster_loadshape_transformed_df := []
      n_clusters := cluster_result.n_clusters
      score := cluster_result.score
      score_unable_to_be_calculated := true
      seed := cluster_result.seed
      iter_scores := score_elements
      agg_type := agg_type
      dist_metric := dist_metric }
  else
    let cluster_loadshape_df := _get_cluster_ls
      cluster_result.pool_loadshape_transform_result.concatenated_loadshapes
      cluster_result.cluster_df (aggOf agg_type)
    let cluster_loadshape_transformed_df :=
      _transform_cluster_loadshape cluster_loadshape_df
    { cluster_loadshape_transformed_df := cluster_loadshape_transformed_df
      cluster_df := cluster_result.cluster_df
      n_clusters := cluster_result.n_clusters
      score := cluster_result.score
      score_unable_to_be_calculated := cluster_result.score_unable_to_be_calculated
      cluster_key := cluster_result.cluster_key
      seed := cluster_result.seed
      iter_scores := score_elements
      dist_metric := dist_metric
      agg_type := agg_type }

/-- Embedding of `ClusterResult.from_comparison_pool_loadshapes_and_settings`,
the public entry point.  `from_full_cp_ls_df` stands for the upstream
`_transform.InitialPoolLoadshapeTransform.from_full_cp_ls_df` (not under
`src/`).  The call to `get_best_scored_cluster_result` passes the literal
`1` for `n_iter_cluster`, exactly as the source does — it does not pass
`s.n_iter_cluster`. -/
def ClusterResult.from_comparison_pool_loadshapes_and_settings
    (score_clusters : ScoreClusters) (kmeans_labels_full : KMeansLabels)
    (get_cluster_bounds : GetClusterBounds)
    (from_full_cp_ls_df : List (Nat × List ℚ) → ℚ → InitialPoolLoadshapeTransform)
    (aggOf : String → List ℚ → ℚ) (df_cp_ls : List (Nat × List ℚ))
    (s : Settings) : Except String ClusterResult :=
  let ls_transform := from_full_cp_ls_df df_cp_ls s.fpca_min_variance_ratio
  match get_best_scored_cluster_result score_clusters kmeans_labels_full
      get_cluster_bounds ls_transform s.min_cluster_size s.num_cluster_bound_upper
      s.num_cluster_bound_lower s.score_choice s.dist_metric ("") s.seed 1
      s.max_non_outlier_cluster_count with
  | Except.error e => Except.error e
  | Except.ok bs =>
    Except.ok (ClusterResult.from_cluster_result_and_agg_type aggOf bs.1 bs.2
      s.agg_type s.dist_metric)

/-! ### Theory of the best-selection fold (`_iterate_best_found_cluster`) -/

lemma bestStep_cases (b r : ClusterResultIntermediate) :
    bestStep b r = b ∨ bestStep b r = r := by
  unfold bestStep
  split_ifs <;> simp

lemma bestStep_flagged (b r : ClusterResultIntermediate)
    (hb : b.score_unable_to_be_calculated = true)
    (hr : r.score_unable_to_be_calculated = true) : bestStep b r = b := by
  unfold bestStep
  simp [hb, hr]

lemma bestStep_avail_left (b r : ClusterResultIntermediate)
    (hb : b.score_unable_to_be_calculated = false) :
    (bestStep b r).score_unable_to_be_calculated = false ∧
      (bestStep b r).score ≤ b.score := by
  unfold bestStep
  simp only [hb, Bool.false_eq_true, false_and, if_false]
  split_ifs with h2 h3
  · exact ⟨hb, le_refl _⟩
  · exact ⟨by simpa using h2, le_of_lt h3⟩
  · exact ⟨hb, le_refl _⟩

lemma bestStep_avail_right (b r : ClusterResultIntermediate)
    (hr : r.score_unable_to_be_calculated = false) :
    (bestStep b r).score_unable_to_be_calculated = false ∧
      (bestStep b r).score ≤ r.score := by
  unfold bestStep
  simp only [hr, Bool.false_eq_true, not_false_eq_true, and_true, if_false]
  split_ifs with h1 h3
  · exact ⟨hr, le_refl _⟩
  · exact ⟨hr, le_refl _⟩
  · exact ⟨by simpa using h1, le_of_not_lt h3⟩

lemma bestStep_eq_right_of_avail_left (b r : ClusterResultIntermediate)
    (hb : b.score_unable_to_be_calculated = false) (hne : b ≠ r)
    (h : bestStep b r = r) :
    r.score_unable_to_be_calculated = false ∧ r.score < b.score := by
  unfold bestStep at h
  simp only [hb, Bool.false_eq_true, false_and, if_false] at h
  split_ifs at h with h2 h3
  · exact absurd h hne
  · exact ⟨by simpa using h2, h3⟩
  · exact absurd h hne

lemma bestStep_eq_left_of_avail_right (b r : ClusterResultIntermediate)
    (hr : r.score_unable_to_be_calculated = false) (hne : b ≠ r)
    (h : bestStep b r = b) :
    b.score_unable_to_be_calculated = false ∧ b.score ≤ r.score := by
  unfold bestStep at h
  simp only [hr, Bool.false_eq_true, not_false_eq_true, and_true, if_false] at h
  split_ifs at h with h1 h3
  · exact absurd h.symm hne
  · exact absurd h.symm hne
  · exact ⟨by simpa using h1, le_of_not_lt h3⟩

lemma foldl_bestStep_mem (x : ClusterResultIntermediate)
    (xs : List ClusterResultIntermediate) : xs.foldl bestStep x ∈ x :: xs := by
  induction xs generalizing x with
  | nil => simp
  | cons y ys ih =>
    simp only [List.foldl_cons]
    have h := ih (bestStep x y)
    rcases List.mem_cons.mp h with h' | h'
    · rcases bestStep_cases x y with hc | hc
      · rw [h', hc]; exact List.mem_cons_self _ _
      · rw [h', hc]; exact List.mem_cons_of_mem _ (List.mem_cons_self _ _)
    · exact List.mem_cons_of_mem _ (List.mem_cons_of_mem _ h')

lemma foldl_bestStep_avail (x : ClusterResultIntermediate)
    (xs : List ClusterResultIntermediate)
    (h : ∃ r ∈ x :: xs, r.score_unable_to_be_calculated = false) :
    (xs.foldl bestStep x).score_unable_to_be_calculated = false ∧
      ∀ r ∈ x :: xs, r.score_unable_to_be_calculated = false →
        (xs.foldl bestStep x).score ≤ r.score := by
  induction xs generalizing x with
  | nil =>
    obtain ⟨r, hr, hra⟩ := h
    rw [List.mem_singleton] at hr
    subst hr
    refine ⟨hra, fun s hmem _ => ?_⟩
    rw [List.mem_singleton] at hmem
    subst hmem
    exact le_refl _
  | cons y ys ih =>
    simp only [List.foldl_cons]
    have hz : ∃ r ∈ bestStep x y :: ys, r.score_unable_to_be_calculated = false := by
      obtain ⟨r, hr, hra⟩ := h
      rcases List.mem_cons.mp hr with h' | h'
      · exact ⟨bestStep x y, List.mem_cons_self _ _,
          (bestStep_avail_left x y (h' ▸ hra)).1⟩
      rcases List.mem_cons.mp h' with h'' | h''
      · exact ⟨bestStep x y, List.mem_cons_self _ _,
          (bestStep_avail_right x y (h'' ▸ hra)).1⟩
      · exact ⟨r, List.mem_cons_of_mem _ h'', hra⟩
    obtain ⟨hfl, hmin⟩ := ih (bestStep x y) hz
    refine ⟨hfl, fun r hr hra => ?_⟩
    rcases List.mem_cons.mp hr with h' | h'
    · subst h'
      obtain ⟨hza, hzs⟩ := bestStep_avail_left r y hra
      exact le_trans (hmin _ (List.mem_cons_self _ _) hza) hzs
    rcases List.mem_cons.mp h' with h'' | h''
    · subst h''
      obtain ⟨hza, hzs⟩ := bestStep_avail_right x r hra
      exact le_trans (hmin _ (List.mem_cons_self _ _) hza) hzs
    · exact hmin r (List.mem_cons_of_mem _ h'') hra

lemma foldl_bestStep_flagged (x : ClusterResultIntermediate)
    (xs : List ClusterResultIntermediate)
    (h : ∀ r ∈ x :: xs, r.score_unable_to_be_calculated = true) :
    xs.foldl bestStep x = x := by
  induction xs generalizing x with
  | nil => rfl
  | cons y ys ih =>
    simp only [List.foldl_cons]
    rw [bestStep_flagged x y (h x (List.mem_cons_self _ _))
      (h y (List.mem_cons_of_mem _ (List.mem_cons_self _ _)))]
    exact ih x fun r hr => h r (by
      rcases List.mem_cons.mp hr with h' | h'
      · exact h' ▸ List.mem_cons_self _ _
      · exact List.mem_cons_of_mem _ (List.mem_cons_of_mem _ h'))

lemma foldl_bestStep_tie (xs : List ClusterResultIntermediate) :
    ∀ x : ClusterResultIntermediate,
      ((x :: xs).Pairwise fun a b => a.n_clusters < b.n_clusters) →
      ∀ r ∈ x :: xs, r.score_unable_to_be_calculated = false →
        r.score = (xs.foldl bestStep x).score →
        (xs.foldl bestStep x).n_clusters ≤ r.n_clusters := by
  induction xs with
  | nil =>
    intro x _ r hr _ _
    rw [List.mem_singleton] at hr
    subst hr
    exact le_refl _
  | cons y ys ih =>
    intro x hsort r hr hra hsc
    simp only [List.foldl_cons] at hsc ⊢
    obtain ⟨hx, hyys⟩ := List.pairwise_cons.mp hsort
    obtain ⟨hy, hys⟩ := List.pairwise_cons.mp hyys
    have hxy : x.n_clusters < y.n_clusters := hx y (List.mem_cons_self _ _)
    have hne : x ≠ y := fun hcontra => absurd hxy (by rw [hcontra]; exact lt_irrefl _)
    have hsortx : (x :: ys).Pairwise fun a b => a.n_clusters < b.n_clusters :=
      List.pairwise_cons.mpr ⟨fun b hb => hx b (List.mem_cons_of_mem _ hb), hys⟩
    rcases List.mem_cons.mp hr with hrx | hr'
    · subst hrx
      rcases bestStep_cases r y with hc | hc <;> rw [hc] at hsc ⊢
      · exact ih r hsortx r (List.mem_cons_self _ _) hra hsc
      · obtain ⟨hya, hylt⟩ := bestStep_eq_right_of_avail_left r y hra hne hc
        have hmin := (foldl_bestStep_avail y ys
          ⟨y, List.mem_cons_self _ _, hya⟩).2 y (List.mem_cons_self _ _) hya
        exact absurd (lt_of_le_of_lt (hsc ▸ hmin) hylt) (lt_irrefl _)
    rcases List.mem_cons.mp hr' with hry | hr''
    · subst hry
      rcases bestStep_cases x r with hc | hc <;> rw [hc] at hsc ⊢
      · obtain ⟨hxa, hxs⟩ := bestStep_eq_left_of_avail_right x r hra hne hc
        have hmin := (foldl_bestStep_avail x ys
          ⟨x, List.mem_cons_self _ _, hxa⟩).2 x (List.mem_cons_self _ _) hxa
        have hxeq : x.score = (ys.foldl bestStep x).score :=
          le_antisymm (le_trans hxs (le_of_eq hsc)) hmin
        have hle := ih x hsortx x (List.mem_cons_self _ _) hxa hxeq
        exact le_trans hle (le_of_lt hxy)
      · exact ih r hyys r (List.mem_cons_self _ _) hra hsc
    · rcases bestStep_cases x y with hc | hc <;> rw [hc] at hsc ⊢
      · exact ih x hsortx r (List.mem_cons_of_mem _ hr'') hra hsc
      · exact ih y hyys r (List.mem_cons_of_mem _ hr'') hra hsc

lemma foldl_running_best_flagged (x : ClusterResultIntermediate)
    (hx : x.score_unable_to_be_calculated = true) :
    ∀ ps : List (ClusterResultIntermediate × ClusterScoreElement),
      (∀ pr ∈ ps, pr.1.score_unable_to_be_calculated = true) →
        ps.foldl running_best (some x) = some x
  | [], _ => rfl
  | pr :: rest, h2 => by
    have hstep : running_best (some x) pr = some x := by
      show (_iterate_best_found_cluster [x, pr.1]).toOption = some x
      simp only [_iterate_best_found_cluster, List.foldl]
      rw [bestStep_flagged x pr.1 hx (h2 pr (List.mem_cons_self _ _))]
      rfl
    rw [List.foldl_cons, hstep]
    exact foldl_running_best_flagged x hx rest
      fun q hq => h2 q (List.mem_cons_of_mem _ hq)

/-! ### Claims about the best-selection function -/

/-- C2: over candidates visited in ascending cluster-count order, if two
candidates both have an available score and the scores are exactly equal,
`_iterate_best_found_cluster` keeps the earliest-encountered candidate,
the one with the smaller cluster count: the selected best has a cluster
count no larger than that of any available candidate with the same
score. -/
theorem iterate_best_tie_keeps_smallest_n_clusters
    (rs : List ClusterResultIntermediate)
    (hsort : rs.Pairwise fun a b => a.n_clusters < b.n_clusters)
    (best r : ClusterResultIntermediate)
    (hbest : _iterate_best_found_cluster rs = Except.ok best)
    (hr : r ∈ rs) (hra : r.score_unable_to_be_calculated = false)
    (hsc : r.score = best.score) :
    best.n_clusters ≤ r.n_clusters := by
  match rs, hbest, hsort, hr with
  | x :: xs, hbest, hsort, hr =>
    simp only [_iterate_best_found_cluster, Except.ok.injEq] at hbest
    subst hbest
    exact foldl_bestStep_tie xs x hsort r hr hra hsc

/-- First of the two tied candidates of example scenario 3 of the spec:
score 0.42 at 4 clusters. -/
def tie_candidate_n4 : ClusterResultIntermediate :=
  { n_clusters := 4
    score := (21 : ℚ) / 50
    labels := []
    cluster_df := []
    score_unable_to_be_calculated := false
    pool_loadshape_transform_result :=
      { err_msg := none, fpca_result := [], concatenated_loadshapes := [] }
    cluster_key := ""
    seed := 0 }

/-- Second of the two tied candidates of example scenario 3 of the spec:
score 0.42 at 6 clusters. -/
def tie_candidate_n6 : ClusterResultIntermediate :=
  { n_clusters := 6
    score := (21 : ℚ) / 50
    labels := []
    cluster_df := []
    score_unable_to_be_calculated := false
    pool_loadshape_transform_result :=
      { err_msg := none, fpca_result := [], concatenated_loadshapes := [] }
    cluster_key := ""
    seed := 0 }

/-- Witness for C2, example scenario 3 of the spec: candidates scoring 0.42
at 4 clusters and 0.42 at 6 clusters select the 4-cluster candidate. -/
theorem iterate_best_tie_keeps_smallest_n_clusters_witness :
    _iterate_best_found_cluster [tie_candidate_n4, tie_candidate_n6] =
        Except.ok tie_candidate_n4 ∧
      tie_candidate_n4.n_clusters ≤ tie_candidate_n6.n_clusters := by
  have h : _iterate_best_found_cluster [tie_candidate_n4, tie_candidate_n6] =
      Except.ok tie_candidate_n4 := by
    show Except.ok ([tie_candidate_n6].foldl bestStep tie_candidate_n4) = _
    rw [List.foldl_cons, List.foldl_nil]
    rw [show bestStep tie_candidate_n4 tie_candidate_n6 = tie_candidate_n4 from by
      simp [bestStep, tie_candidate_n4, tie_candidate_n6]]
  refine ⟨h, iterate_best_tie_keeps_smallest_n_clusters
    [tie_candidate_n4, tie_candidate_n6] ?_ tie_candidate_n4 tie_candidate_n6 h
    ?_ rfl rfl⟩
  · exact List.pairwise_cons.mpr ⟨fun b hb => by
      rw [List.mem_singleton] at hb; rw [hb]; decide, by simp⟩
  · exact List.mem_cons_of_mem _ (List.mem_cons_self _ _)

/-- C3: whenever at least one candidate in the sequence has an available
score, `_iterate_best_found_cluster` succeeds and never returns a candidate
with `score_unable_to_be_calculated = true`, regardless of the sentinel
score values of unavailable candidates and of their position. -/
theorem iterate_best_never_returns_unavailable
    (rs : List ClusterResultIntermediate)
    (h : ∃ r ∈ rs, r.score_unable_to_be_calculated = false) :
    ∃ best, _iterate_best_found_cluster rs = Except.ok best ∧
      best.score_unable_to_be_calculated = false := by
  match rs, h with
  | x :: xs, h =>
    exact ⟨xs.foldl bestStep x, rfl, (foldl_bestStep_avail x xs h).1⟩

/-- An available candidate placed after an unavailable one whose sentinel
score is lower: used to witness C3. -/
def avail_candidate : ClusterResultIntermediate :=
  { n_clusters := 3
    score := (7 : ℚ) / 2
    labels := []
    cluster_df := []
    score_unable_to_be_calculated := false
    pool_loadshape_transform_result :=
      { err_msg := none, fpca_result := [], concatenated_loadshapes := [] }
    cluster_key := ""
    seed := 0 }

/-- An unavailable candidate carrying a sentinel score lower than the
available candidate's score: used to witness C3. -/
def unavail_candidate : ClusterResultIntermediate :=
  { n_clusters := 2
    score := 0
    labels := []
    cluster_df := []
    score_unable_to_be_calculated := true
    pool_loadshape_transform_result :=
      { err_msg := none, fpca_result := [], concatenated_loadshapes := [] }
    cluster_key := ""
    seed := 0 }

/-- Witness for C3: even when the unavailable candidate comes first and
carries sentinel score 0, lower than the available candidate's 3.5, the
selection returns an available candidate. -/
theorem iterate_best_never_returns_unavailable_witness :
    ∃ best, _iterate_best_found_cluster [unavail_candidate, avail_candidate] =
        Except.ok best ∧ best.score_unable_to_be_calculated = false :=
  iterate_best_never_returns_unavailable [unavail_candidate, avail_candidate]
    ⟨avail_candidate, List.mem_cons_of_mem _ (List.mem_cons_self _ _), by decide⟩

/-- C10: on a non-empty sequence whose candidates all have
`score_unable_to_be_calculated = true`, `_iterate_best_found_cluster`
returns the first element, and the running-best fold of
`get_best_scored_cluster_result` likewise keeps the first seed iteration's
sentinel, so the final result reports the first iteration's seed and
cluster count. -/
theorem iterate_best_all_unavailable_returns_first
    (x : ClusterResultIntermediate) (xs : List ClusterResultIntermediate)
    (h1 : ∀ r ∈ x :: xs, r.score_unable_to_be_calculated = true)
    (ps : List (ClusterResultIntermediate × ClusterScoreElement))
    (h2 : ∀ pr ∈ ps, pr.1.score_unable_to_be_calculated = true) :
    _iterate_best_found_cluster (x :: xs) = Except.ok x ∧
      ps.foldl running_best (some x) = some x := by
  constructor
  · show Except.ok (xs.foldl bestStep x) = Except.ok x
    rw [foldl_bestStep_flagged x xs h1]
  · exact foldl_running_best_flagged x (h1 x (List.mem_cons_self _ _)) ps h2

/-- First all-unavailable candidate (seed 11, 5 clusters), for the C10
witness. -/
def sentinel_first : ClusterResultIntermediate :=
  { n_clusters := 5
    score := get_max_score_from_system_size
    labels := []
    cluster_df := []
    score_unable_to_be_calculated := true
    pool_loadshape_transform_result :=
      { err_msg := none, fpca_result := [], concatenated_loadshapes := [] }
    cluster_key := ""
    seed := 11 }

/-- Second all-unavailable candidate (seed 12, 5 clusters), for the C10
witness. -/
def sentinel_second : ClusterResultIntermediate :=
  { n_clusters := 5
    score := get_max_score_from_system_size
    labels := []
    cluster_df := []
    score_unable_to_be_calculated := true
    pool_loadshape_transform_result :=
      { err_msg := none, fpca_result := [], concatenated_loadshapes := [] }
    cluster_key := ""
    seed := 12 }

/-- Witness for C10: with two unavailable candidates the selection returns
the first (seed 11), also through the running-best fold. -/
theorem iterate_best_all_unavailable_returns_first_witness :
    _iterate_best_found_cluster [sentinel_first, sentinel_second] =
        Except.ok sentinel_first ∧
      [(sentinel_second,
        (⟨2, 12, 5, get_max_score_from_system_size, true⟩ :
          ClusterScoreElement))].foldl running_best (some sentinel_first) =
        some sentinel_first := by
  refine iterate_best_all_unavailable_returns_first sentinel_first
    [sentinel_second] ?_ _ ?_
  · intro r hr
    rcases List.mem_cons.mp hr with h | h
    · rw [h]; decide
    · rw [List.mem_singleton] at h; rw [h]; decide
  · intro pr hpr
    rw [List.mem_singleton] at hpr
    rw [hpr]
    rfl

/-! ### Theory of `merge_small_clusters` and `_final_cluster_renumber` -/

/-- The per-element function applied by `merge_small_clusters`. -/
def mergeFun (l : List ℤ) (m : ℕ) (c : ℤ) : ℤ :=
  if l.count c < m then -1
  else ((l.dedup.filter fun d => decide (m ≤ l.count d ∧ d < c)).length : ℤ)

lemma merge_small_clusters_eq_map (l : List ℤ) (m : ℕ) :
    merge_small_clusters l m = l.map (mergeFun l m) := rfl

/-- The per-element function applied by `_final_cluster_renumber`. -/
def finalFun (l : List ℤ) (m : ℕ) (c : ℤ) : ℤ := mergeFun l m c + 1

lemma final_cluster_renumber_eq_map (l : List ℤ) (m : ℕ) :
    _final_cluster_renumber l m = l.map (finalFun l m) := by
  rw [_final_cluster_renumber, merge_small_clusters_eq_map, List.map_map]
  rfl

/-- The distinct labels of `l` whose member count reaches `m`. -/
def survivors (l : List ℤ) (m : ℕ) : List ℤ :=
  l.dedup.filter fun d => decide (m ≤ l.count d)

/-- The surviving labels as a finite set. -/
def survivorsF (l : List ℤ) (m : ℕ) : Finset ℤ := (survivors l m).toFinset

/-- Rank of a label among the survivors: how many survivors are smaller. -/
def rankN (l : List ℤ) (m : ℕ) (c : ℤ) : ℕ :=
  ((survivorsF l m).filter fun d => d < c).card

lemma survivors_nodup (l : List ℤ) (m : ℕ) : (survivors l m).Nodup :=
  (l.nodup_dedup).filter _

lemma card_survivorsF (l : List ℤ) (m : ℕ) :
    (survivorsF l m).card = (survivors l m).length :=
  List.toFinset_card_of_nodup (survivors_nodup l m)

lemma mem_survivorsF (l : List ℤ) (m : ℕ) (c : ℤ) :
    c ∈ survivorsF l m ↔ c ∈ l ∧ m ≤ l.count c := by
  simp [survivorsF, survivors, List.mem_dedup]

lemma filter_merge_eq (l : List ℤ) (m : ℕ) (c : ℤ) :
    (l.dedup.filter fun d => decide (m ≤ l.count d ∧ d < c)) =
      (survivors l m).filter fun d => decide (d < c) := by
  rw [survivors, List.filter_filter]
  congr 1
  funext d
  rw [Bool.decide_and]
  exact Bool.and_comm _ _

lemma mergeFun_of_surv (l : List ℤ) (m : ℕ) (c : ℤ) (h : m ≤ l.count c) :
    mergeFun l m c = (rankN l m c : ℤ) := by
  rw [mergeFun, if_neg (not_lt.mpr h)]
  congr 1
  rw [filter_merge_eq, rankN]
  have hnodup : ((survivors l m).filter fun d => decide (d < c)).Nodup :=
    (survivors_nodup l m).filter _
  rw [← List.toFinset_card_of_nodup hnodup, List.toFinset_filter]
  congr 1
  exact Finset.filter_congr fun x _ => by simp

lemma mergeFun_of_small (l : List ℤ) (m : ℕ) (c : ℤ) (h : l.count c < m) :
    mergeFun l m c = -1 := if_pos h

lemma exists_card_filter_lt_eq (j : ℕ) : ∀ S : Finset ℤ, j < S.card →
    ∃ c ∈ S, (S.filter fun d => d < c).card = j := by
  induction j with
  | zero =>
    intro S hS
    have hne : S.Nonempty := Finset.card_pos.mp hS
    refine ⟨S.min' hne, S.min'_mem hne, ?_⟩
    rw [Finset.card_eq_zero, Finset.filter_eq_empty_iff]
    intro d hd hlt
    exact absurd (S.min'_le d hd) (not_le.mpr hlt)
  | succ j ih =>
    intro S hS
    have hne : S.Nonempty := Finset.card_pos.mp (Nat.lt_of_le_of_lt (Nat.zero_le _) hS)
    have hc0mem : S.min' hne ∈ S := S.min'_mem hne
    have hcard : (S.erase (S.min' hne)).card = S.card - 1 :=
      Finset.card_erase_of_mem hc0mem
    have hj : j < (S.erase (S.min' hne)).card := by omega
    obtain ⟨c, hc, hcardc⟩ := ih (S.erase (S.min' hne)) hj
    have hcS : c ∈ S := Finset.mem_of_mem_erase hc
    have hcne : c ≠ S.min' hne := (Finset.mem_erase.mp hc).1
    have hlt : S.min' hne < c := lt_of_le_of_ne (S.min'_le c hcS) (Ne.symm hcne)
    refine ⟨c, hcS, ?_⟩
    have hset : S.filter (fun d => d < c) =
        insert (S.min' hne) ((S.erase (S.min' hne)).filter fun d => d < c) := by
      ext d
      simp only [Finset.mem_filter, Finset.mem_insert, Finset.mem_erase]
      constructor
      · rintro ⟨hdS, hdlt⟩
        by_cases hd0 : d = S.min' hne
        · exact Or.inl hd0
        · exact Or.inr ⟨⟨hd0, hdS⟩, hdlt⟩
      · rintro (hd0 | ⟨⟨hdne, hdS⟩, hdlt⟩)
        · exact ⟨hd0.symm ▸ hc0mem, hd0.symm ▸ hlt⟩
        · exact ⟨hdS, hdlt⟩
    have hnotmem : S.min' hne ∉ (S.erase (S.min' hne)).filter fun d => d < c := by
      intro hmem
      exact (Finset.mem_erase.mp (Finset.mem_filter.mp hmem).1).1 rfl
    rw [hset, Finset.card_insert_of_not_mem hnotmem, hcardc]

lemma rankN_lt_card (l : List ℤ) (m : ℕ) (c : ℤ) (hc : c ∈ survivorsF l m) :
    rankN l m c < (survivorsF l m).card := by
  apply Finset.card_lt_card
  rw [Finset.ssubset_iff_of_subset (Finset.filter_subset _ _)]
  exact ⟨c, hc, by simp⟩

lemma rankN_strictMono (l : List ℤ) (m : ℕ) (c c' : ℤ)
    (hc : c ∈ survivorsF l m) (hlt : c < c') :
    rankN l m c < rankN l m c' := by
  apply Finset.card_lt_card
  rw [Finset.ssubset_iff_of_subset
    (Finset.monotone_filter_right _ fun d hd => lt_trans hd hlt)]
  exact ⟨c, Finset.mem_filter.mpr ⟨hc, hlt⟩, by simp⟩

lemma rankN_injOn (l : List ℤ) (m : ℕ) (c c' : ℤ)
    (hc : c ∈ survivorsF l m) (hc' : c' ∈ survivorsF l m)
    (heq : rankN l m c = rankN l m c') : c = c' := by
  rcases lt_trichotomy c c' with h | h | h
  · exact absurd heq (Nat.ne_of_lt (rankN_strictMono l m c c' hc h))
  · exact h
  · exact absurd heq.symm (Nat.ne_of_lt (rankN_strictMono l m c' c hc' h))

lemma finalFun_mem_range (l : List ℤ) (m : ℕ) (c : ℤ) (hc : c ∈ l) :
    finalFun l m c = 0 ∨
      (1 ≤ finalFun l m c ∧ finalFun l m c ≤ ((survivorsF l m).card : ℤ)) := by
  by_cases h : l.count c < m
  · left
    rw [finalFun, mergeFun_of_small l m c h]
    decide
  · right
    rw [finalFun, mergeFun_of_surv l m c (not_lt.mp h)]
    have hmem : c ∈ survivorsF l m := (mem_survivorsF l m c).mpr ⟨hc, not_lt.mp h⟩
    have := rankN_lt_card l m c hmem
    omega

lemma finalFun_surj (l : List ℤ) (m : ℕ) (j : ℕ) (h1 : 1 ≤ j)
    (h2 : j ≤ (survivorsF l m).card) :
    ∃ c ∈ l, finalFun l m c = (j : ℤ) := by
  obtain ⟨c, hc, hcard⟩ := exists_card_filter_lt_eq (j - 1) (survivorsF l m) (by omega)
  obtain ⟨hcl, hcnt⟩ := (mem_survivorsF l m c).mp hc
  refine ⟨c, hcl, ?_⟩
  rw [finalFun, mergeFun_of_surv l m c hcnt]
  have : rankN l m c = j - 1 := hcard
  omega

lemma final_mem_range (l : List ℤ) (m : ℕ) (x : ℤ)
    (hx : x ∈ _final_cluster_renumber l m) :
    x = 0 ∨ (1 ≤ x ∧ x ≤ ((survivorsF l m).card : ℤ)) := by
  rw [final_cluster_renumber_eq_map] at hx
  obtain ⟨c, hc, hcx⟩ := List.mem_map.mp hx
  exact hcx ▸ finalFun_mem_range l m c hc

lemma final_surj (l : List ℤ) (m : ℕ) (j : ℕ) (h1 : 1 ≤ j)
    (h2 : j ≤ (survivorsF l m).card) :
    (j : ℤ) ∈ _final_cluster_renumber l m := by
  obtain ⟨c, hc, hcj⟩ := finalFun_surj l m j h1 h2
  rw [final_cluster_renumber_eq_map]
  exact List.mem_map.mpr ⟨c, hc, hcj⟩

lemma final_count (l : List ℤ) (m : ℕ) (x : ℤ)
    (hx : x ∈ _final_cluster_renumber l m) (hx1 : 1 ≤ x) :
    m ≤ (_final_cluster_renumber l m).count x := by
  rw [final_cluster_renumber_eq_map] at hx ⊢
  obtain ⟨c, hc, hcx⟩ := List.mem_map.mp hx
  have hcsurv : m ≤ l.count c := by
    by_contra hsmall
    rw [finalFun, mergeFun_of_small l m c (not_le.mp hsmall)] at hcx
    omega
  have hcmem : c ∈ survivorsF l m := (mem_survivorsF l m c).mpr ⟨hc, hcsurv⟩
  have hcount : (l.map (finalFun l m)).count x = l.count c := by
    rw [List.count_eq_countP, List.countP_map, List.count_eq_countP]
    apply List.countP_congr
    intro a ha
    simp only [Function.comp_apply, beq_iff_eq]
    constructor
    · intro hax
      by_cases hasmall : l.count a < m
      · rw [finalFun, mergeFun_of_small l m a hasmall] at hax
        omega
      · have hamem : a ∈ survivorsF l m :=
          (mem_survivorsF l m a).mpr ⟨ha, not_lt.mp hasmall⟩
        rw [finalFun, mergeFun_of_surv l m a (not_lt.mp hasmall)] at hax
        rw [finalFun, mergeFun_of_surv l m c hcsurv] at hcx
        have : rankN l m a = rankN l m c := by omega
        exact rankN_injOn l m a c hamem hcmem this
    · intro hac
      rw [hac]
      exact hcx
  rw [hcount]
  exact hcsurv

/-! ### Claims about the post-processing step -/

/-- C4: for every label vector and every `min_cluster_size`, the finalized
labeling of `_final_cluster_renumber` has cluster ids within
`{0} ∪ {1..k}`, every id `1..k` is inhabited (no gaps), and every cluster
id at least 1 has at least `min_cluster_size` members. -/
theorem final_cluster_renumber_invariant (clusters : List ℤ) (m : ℕ) :
    ∃ k : ℕ,
      (∀ x ∈ _final_cluster_renumber clusters m,
        x = 0 ∨ (1 ≤ x ∧ x ≤ (k : ℤ))) ∧
      (∀ j : ℕ, 1 ≤ j → j ≤ k → (j : ℤ) ∈ _final_cluster_renumber clusters m) ∧
      (∀ x ∈ _final_cluster_renumber clusters m, 1 ≤ x →
        m ≤ (_final_cluster_renumber clusters m).count x) :=
  ⟨(survivorsF clusters m).card,
    fun x hx => final_mem_range clusters m x hx,
    fun j h1 h2 => final_surj clusters m j h1 h2,
    fun x hx hx1 => final_count clusters m x hx hx1⟩

/-- Witness for C4 at the concrete labeling `[0, 0, 1, 2, 2]` with
`min_cluster_size = 2` (cluster 1 is undersized and becomes outlier 0). -/
theorem final_cluster_renumber_invariant_witness :
    ∃ k : ℕ,
      (∀ x ∈ _final_cluster_renumber [0, 0, 1, 2, 2] 2,
        x = 0 ∨ (1 ≤ x ∧ x ≤ (k : ℤ))) ∧
      (∀ j : ℕ, 1 ≤ j → j ≤ k → (j : ℤ) ∈ _final_cluster_renumber [0, 0, 1, 2, 2] 2) ∧
      (∀ x ∈ _final_cluster_renumber [0, 0, 1, 2, 2] 2, 1 ≤ x →
        2 ≤ (_final_cluster_renumber [0, 0, 1, 2, 2] 2).count x) :=
  final_cluster_renumber_invariant [0, 0, 1, 2, 2] 2

/-- Counterexample to C6 as stated: on labels `[5, 5, 7, 7]` with
`min_cluster_size = 3` both clusters are undersized, one application yields
`[0, 0, 0, 0]`, and a second application promotes the now-large outlier
class 0 to valid cluster 1, yielding `[1, 1, 1, 1]`: the post-processing
step is not idempotent. -/
theorem final_cluster_renumber_not_idempotent :
    _final_cluster_renumber (_final_cluster_renumber [5, 5, 7, 7] 3) 3 ≠
      _final_cluster_renumber [5, 5, 7, 7] 3 := by decide

/-- C6 (amended): `_final_cluster_renumber` is idempotent whenever the
outlier class 0 of the first application's output is empty or keeps fewer
than `min_cluster_size` members; when at least `min_cluster_size` labels
were merged into the outlier class, re-application promotes that class to
a valid cluster and shifts every id, so idempotence fails in general. -/
theorem final_cluster_renumber_idempotent_of_small_outlier
    (clusters : List ℤ) (m : ℕ)
    (h : (_final_cluster_renumber clusters m).count 0 < m ∨
      (0 : ℤ) ∉ _final_cluster_renumber clusters m) :
    _final_cluster_renumber (_final_cluster_renumber clusters m) m =
      _final_cluster_renumber clusters m := by
  have hcount0 : ∀ x ∈ _final_cluster_renumber clusters m, x = 0 →
      (_final_cluster_renumber clusters m).count 0 < m := by
    intro x hx hx0
    rcases h with h | h
    · exact h
    · exact absurd (hx0 ▸ hx) h
  have hsurv : survivorsF (_final_cluster_renumber clusters m) m =
      Finset.Icc (1 : ℤ) ((survivorsF clusters m).card : ℤ) := by
    ext d
    rw [mem_survivorsF, Finset.mem_Icc]
    constructor
    · rintro ⟨hd, hdc⟩
      rcases final_mem_range clusters m d hd with h0 | ⟨h1, h2⟩
      · subst h0
        exact absurd hdc (not_le.mpr (hcount0 0 hd rfl))
      · exact ⟨h1, h2⟩
    · rintro ⟨h1, h2⟩
      have hdn : d = ((d.toNat : ℕ) : ℤ) := (Int.toNat_of_nonneg (by omega)).symm
      have hmem : ((d.toNat : ℕ) : ℤ) ∈ _final_cluster_renumber clusters m :=
        final_surj clusters m d.toNat (by omega) (by omega)
      rw [hdn]
      exact ⟨hmem, final_count clusters m _ hmem (by omega)⟩
  have hfix : ∀ x ∈ _final_cluster_renumber clusters m,
      finalFun (_final_cluster_renumber clusters m) m x = x := by
    intro x hx
    rcases final_mem_range clusters m x hx with h0 | ⟨h1, h2⟩
    · subst h0
      rw [finalFun, mergeFun_of_small _ m 0 (hcount0 0 hx rfl)]
      decide
    · have hcnt : m ≤ (_final_cluster_renumber clusters m).count x :=
        final_count clusters m x hx h1
      rw [finalFun, mergeFun_of_surv _ m x hcnt]
      have hrank : rankN (_final_cluster_renumber clusters m) m x = (x - 1).toNat := by
        rw [rankN, hsurv]
        have hfilter : (Finset.Icc (1 : ℤ) ((survivorsF clusters m).card : ℤ)).filter
            (fun d => d < x) = Finset.Icc (1 : ℤ) (x - 1) := by
          ext d
          simp only [Finset.mem_filter, Finset.mem_Icc]
          omega
        rw [hfilter, Int.card_Icc]
        congr 1
        omega
      rw [hrank]
      omega
  rw [final_cluster_renumber_eq_map (_final_cluster_renumber clusters m) m]
  have hmap : List.map (finalFun (_final_cluster_renumber clusters m) m)
      (_final_cluster_renumber clusters m) =
        List.map id (_final_cluster_renumber clusters m) :=
    List.map_congr_left fun a ha => hfix a ha
  rw [hmap, List.map_id]

/-- Witness for the amended C6: on `[0, 0, 1, 2, 2]` with
`min_cluster_size = 2` the output `[1, 1, 0, 2, 2]` has a single-member
outlier class, and re-application is the identity. -/
theorem final_cluster_renumber_idempotent_witness :
    _final_cluster_renumber (_final_cluster_renumber [0, 0, 1, 2, 2] 2) 2 =
      _final_cluster_renumber [0, 0, 1, 2, 2] 2 :=
  final_cluster_renumber_idempotent_of_small_outlier [0, 0, 1, 2, 2] 2
    (Or.inl (by decide))

/-! ### Claims about the candidate search driver -/

lemma _get_all_label_results_degenerate (score_clusters : ScoreClusters)
    (kmeans_labels_full : KMeansLabels) (data : DataMatrix) (upper lower : ℕ)
    (sc dm : String) (mcs : ℕ) (seed : ℤ) (mn : ℕ)
    (hdeg : data = [] ∨ upper < 2 ∨ upper > data.length) :
    _get_all_label_results score_clusters kmeans_labels_full data upper lower
      sc dm mcs seed mn = [] := by
  unfold _get_all_label_results
  split_ifs with h1 h2 h3
  any_goals rfl
  rcases hdeg with h | h | h
  · exact absurd (show data.length = 0 by rw [h]; rfl) h3
  · exact absurd h h1
  · exact absurd h h2

/-- A pool loadshape transform carrying the upstream error flag, used to
refute C1. -/
def failed_transform : InitialPoolLoadshapeTransform :=
  { err_msg := some ("fpca transform failed")
    fpca_result := []
    concatenated_loadshapes := [] }

/-- The sentinel result the generator emits for `failed_transform` with
upper bound 5 and seed 42. -/
def failed_sentinel : ClusterResultIntermediate :=
  { n_clusters := 5
    cluster_key := ""
    cluster_df := []
    labels := []
    pool_loadshape_transform_result := failed_transform
    score := get_max_score_from_system_size
    score_unable_to_be_calculated := true
    seed := 42 }

/-- Counterexample to C1: on an input whose feature transform carries the
error flag and whose data is empty, the candidate search driver yields TWO
sentinel results, not exactly one: the `err_msg` branch yields a sentinel
and falls through (there is no `return` after the yield), and the empty
label-result branch then yields a second sentinel. -/
theorem generator_err_flag_two_sentinels :
    get_cluster_result_generator_from_upper_bound_n_cluster
        (fun _ _ _ _ _ _ _ => (0, false)) (fun _ _ _ => []) failed_transform
        5 2 ("silhouette") ("euclidean") 2 ("") (some []) 42 200 =
      Except.ok [failed_sentinel, failed_sentinel] ∧
      [failed_sentinel, failed_sentinel].length ≠ 1 := by
  constructor
  · rfl
  · decide

/-- C1 (amended): when the feature transform carries no error flag, the
driver called on any degenerate input (empty data, a computed upper bound
below 2 as with a single sample, or an upper bound exceeding the sample
count) yields exactly one sentinel `ClusterResultIntermediate` flagged
`score_unable_to_be_calculated = true` and raises no exception; when the
error flag is set the driver instead yields a leading sentinel and falls
through, yielding a second sentinel on degenerate data or raising the
programmer-error `ValueError` when label results exist. -/
theorem generator_degenerate_single_sentinel (score_clusters : ScoreClusters)
    (kmeans_labels_full : KMeansLabels) (t : InitialPoolLoadshapeTransform)
    (upper lower : ℕ) (score_choice dist_metric : String)
    (min_cluster_size : ℕ) (cluster_key : String) (data : DataMatrix)
    (seed : ℤ) (max_non_outlier_cluster_count : ℕ)
    (herr : t.err_msg = none)
    (hdeg : data = [] ∨ upper < 2 ∨ upper > data.length) :
    get_cluster_result_generator_from_upper_bound_n_cluster score_clusters
        kmeans_labels_full t upper lower score_choice dist_metric
        min_cluster_size cluster_key (some data) seed
        max_non_outlier_cluster_count =
      Except.ok [{ n_clusters := upper
                   cluster_key := cluster_key
                   cluster_df := []
                   labels := []
                   pool_loadshape_transform_result := t
                   score := get_max_score_from_system_size
                   score_unable_to_be_calculated := true
                   seed := seed }] := by
  unfold get_cluster_result_generator_from_upper_bound_n_cluster
  rw [Option.getD_some]
  simp [herr, _get_all_label_results_degenerate score_clusters kmeans_labels_full
    data upper lower score_choice dist_metric min_cluster_size seed
    max_non_outlier_cluster_count hdeg, build_cluster_results]

/-- Witness for the amended C1: an error-free transform over empty data
with upper bound 5 yields exactly the one flagged sentinel. -/
theorem generator_degenerate_single_sentinel_witness :
    get_cluster_result_generator_from_upper_bound_n_cluster
        (fun _ _ _ _ _ _ _ => (0, false)) (fun _ _ _ => [])
        { err_msg := none, fpca_result := [], concatenated_loadshapes := [] }
        5 2 ("silhouette") ("euclidean") 2 ("") (some []) 42 200 =
      Except.ok [{ n_clusters := 5
                   cluster_key := ""
                   cluster_df := []
                   labels := []
                   pool_loadshape_transform_result :=
                     { err_msg := none, fpca_result := [],
                       concatenated_loadshapes := [] }
                   score := get_max_score_from_system_size
                   score_unable_to_be_calculated := true
                   seed := 42 }] :=
  generator_degenerate_single_sentinel (fun _ _ _ _ _ _ _ => (0, false))
    (fun _ _ _ => [])
    { err_msg := none, fpca_result := [], concatenated_loadshapes := [] }
    5 2 ("silhouette") ("euclidean") 2 ("") [] 42 200 rfl (Or.inl rfl)

/-! ### Theory of the multi-seed search driver -/

lemma from_label_result_ok (lr : _LabelResult)
    (t : InitialPoolLoadshapeTransform) (ck : String) (seed : ℤ)
    (herr : t.err_msg = none) :
    ∃ c, ClusterResultIntermediate.from_label_result_and_pool_loadshape_transform_result
      lr t ck seed = Except.ok c := by
  unfold ClusterResultIntermediate.from_label_result_and_pool_loadshape_transform_result
  rw [if_neg (by simp [herr])]
  exact ⟨_, rfl⟩

lemma build_cluster_results_ok (t : InitialPoolLoadshapeTransform)
    (ck : String) (seed : ℤ) (herr : t.err_msg = none) :
    ∀ lrs : List _LabelResult, ∃ rs, build_cluster_results t ck seed lrs =
      Except.ok rs ∧ rs.length = lrs.length
  | [] => ⟨[], rfl, rfl⟩
  | lr :: rest => by
    obtain ⟨rs, hrs, hlen⟩ := build_cluster_results_ok t ck seed herr rest
    obtain ⟨c, hc⟩ := from_label_result_ok lr t ck seed herr
    refine ⟨c :: rs, ?_, by simp [hlen]⟩
    simp only [build_cluster_results]
    rw [hc, hrs]

lemma generator_unfold (score_clusters : ScoreClusters)
    (kmeans_labels_full : KMeansLabels) (t : InitialPoolLoadshapeTransform)
    (upper lower : ℕ) (sc dm : String) (mcs : ℕ) (ck : String)
    (data? : Option DataMatrix) (seed : ℤ) (mn : ℕ) :
    get_cluster_result_generator_from_upper_bound_n_cluster score_clusters
        kmeans_labels_full t upper lower sc dm mcs ck data? seed mn =
      match build_cluster_results t ck seed
          (_get_all_label_results score_clusters kmeans_labels_full
            (data?.getD (unstack_fpca t.fpca_result)) upper lower sc dm mcs
            seed mn) with
      | Except.error e => Except.error e
      | Except.ok rest =>
        Except.ok
          ((if t.err_msg ≠ none then
              [{ n_clusters := upper
                 cluster_key := ck
                 cluster_df := []
                 labels := []
                 pool_loadshape_transform_result := t
                 score := get_max_score_from_system_size
                 score_unable_to_be_calculated := true
                 seed := seed }]
            else []) ++
          (if (_get_all_label_results score_clusters kmeans_labels_full
              (data?.getD (unstack_fpca t.fpca_result)) upper lower sc dm mcs
              seed mn).length = 0 then
              [{ n_clusters := upper
                 cluster_key := ck
                 cluster_df := []
                 labels := []
                 pool_loadshape_transform_result := t
                 score := get_max_score_from_system_size
                 score_unable_to_be_calculated := true
                 seed := seed }]
            else []) ++ rest) := rfl

lemma generator_ok_of_no_err (score_clusters : ScoreClusters)
    (kmeans_labels_full : KMeansLabels) (t : InitialPoolLoadshapeTransform)
    (upper lower : ℕ) (sc dm : String) (mcs : ℕ) (ck : String)
    (data? : Option DataMatrix) (seed : ℤ) (mn : ℕ)
    (herr : t.err_msg = none) :
    ∃ rs, get_cluster_result_generator_from_upper_bound_n_cluster score_clusters
        kmeans_labels_full t upper lower sc dm mcs ck data? seed mn =
      Except.ok rs ∧ rs ≠ [] := by
  obtain ⟨rs, hrs, hlen⟩ := build_cluster_results_ok t ck seed herr
    (_get_all_label_results score_clusters kmeans_labels_full
      (data?.getD (unstack_fpca t.fpca_result)) upper lower sc dm mcs seed mn)
  rw [generator_unfold, hrs]
  by_cases hempty : (_get_all_label_results score_clusters kmeans_labels_full
      (data?.getD (unstack_fpca t.fpca_result)) upper lower sc dm mcs
      seed mn).length = 0
  · refine ⟨_, rfl, ?_⟩
    rw [if_neg (by simp [herr]), if_pos hempty]
    simp
  · refine ⟨_, rfl, ?_⟩
    rw [if_neg (by simp [herr]), if_neg hempty]
    simp only [List.nil_append]
    intro hcontra
    rw [hcontra] at hlen
    exact hempty (by simpa using hlen.symm)

lemma run_seed_iterations_spec (score_clusters : ScoreClusters)
    (kmeans_labels_full : KMeansLabels) (t : InitialPoolLoadshapeTransform)
    (upper lower : ℕ) (sc dm : String) (mcs : ℕ) (ck : String)
    (data? : Option DataMatrix) (seed : ℤ) (mn : ℕ)
    (herr : t.err_msg = none) :
    ∀ incs : List ℕ, ∃ res,
      run_seed_iterations score_clusters kmeans_labels_full t upper lower sc
          dm mcs ck data? seed mn incs = Except.ok res ∧
      res.length = incs.length ∧
      ∀ i : ℕ, ∀ hi : i < res.length, ∀ hi' : i < incs.length,
        (res.get ⟨i, hi⟩).2.iteration = incs.get ⟨i, hi'⟩ + 1 ∧
        (res.get ⟨i, hi⟩).2.seed = seed + (incs.get ⟨i, hi'⟩ : ℤ) ∧
        (res.get ⟨i, hi⟩).2.n_clusters = (res.get ⟨i, hi⟩).1.n_clusters ∧
        (res.get ⟨i, hi⟩).2.score = (res.get ⟨i, hi⟩).1.score ∧
        (res.get ⟨i, hi⟩).2.score_unable_to_be_calculated =
          (res.get ⟨i, hi⟩).1.score_unable_to_be_calculated ∧
        ∃ crs, get_cluster_result_generator_from_upper_bound_n_cluster
            score_clusters kmeans_labels_full t upper lower sc dm mcs ck data?
            (seed + (incs.get ⟨i, hi'⟩ : ℤ)) mn = Except.ok crs ∧
          _iterate_best_found_cluster crs =
            Except.ok (res.get ⟨i, hi⟩).1
  | [] => ⟨[], rfl, rfl, fun i hi => absurd hi (by simp)⟩
  | inc :: rest => by
    obtain ⟨crs, hcrs, hnil⟩ := generator_ok_of_no_err score_clusters
      kmeans_labels_full t upper lower sc dm mcs ck data?
      (seed + (inc : ℤ)) mn herr
    obtain ⟨tail, htail, hlen, hspec⟩ := run_seed_iterations_spec score_clusters
      kmeans_labels_full t upper lower sc dm mcs ck data? seed mn herr rest
    match crs, hcrs, hnil with
    | c :: cs, hcrs, _ =>
      refine ⟨(cs.foldl bestStep c,
        { iteration := inc + 1
          n_clusters := (cs.foldl bestStep c).n_clusters
          score := (cs.foldl bestStep c).score
          score_unable_to_be_calculated :=
            (cs.foldl bestStep c).score_unable_to_be_calculated
          seed := seed + (inc : ℤ) }) :: tail, ?_, by simp [hlen], ?_⟩
      · simp only [run_seed_iterations]
        rw [hcrs]
        simp only [_iterate_best_found_cluster]
        rw [htail]
      · intro i hi hi'
        cases i with
        | zero =>
          exact ⟨rfl, rfl, rfl, rfl, rfl, c :: cs, hcrs, rfl⟩
        | succ n =>
          have hn1 : n < tail.length := by simpa using hi
          have hn2 : n < rest.length := by simpa using hi'
          have h := hspec n hn1 hn2
          simpa using h

/-- C7: for every `n_iter_cluster ≥ 1` over an error-free transform, the
multi-seed driver succeeds and produces exactly `n_iter_cluster`
`ClusterScoreElement` records; the i-th (0-based `i`) has
`iteration = i + 1` (the 1-based position) and `seed = seed + i`, and
carries the cluster count, score and availability flag of the candidate
selected for that seed by `_iterate_best_found_cluster`. -/
theorem multi_seed_driver_trace (score_clusters : ScoreClusters)
    (kmeans_labels_full : KMeansLabels) (t : InitialPoolLoadshapeTransform)
    (upper lower : ℕ) (sc dm : String) (mcs : ℕ) (ck : String)
    (data? : Option DataMatrix) (seed : ℤ) (n_iter_cluster mn : ℕ)
    (herr : t.err_msg = none) (hn : 1 ≤ n_iter_cluster) :
    ∃ res, _get_all_cluster_result_generator score_clusters kmeans_labels_full
        t upper lower sc dm mcs ck data? seed n_iter_cluster mn =
        Except.ok res ∧
      res.length = n_iter_cluster ∧
      ∀ i : ℕ, ∀ hi : i < res.length,
        (res.get ⟨i, hi⟩).2.iteration = i + 1 ∧
        (res.get ⟨i, hi⟩).2.seed = seed + (i : ℤ) ∧
        (res.get ⟨i, hi⟩).2.n_clusters = (res.get ⟨i, hi⟩).1.n_clusters ∧
        (res.get ⟨i, hi⟩).2.score = (res.get ⟨i, hi⟩).1.score ∧
        (res.get ⟨i, hi⟩).2.score_unable_to_be_calculated =
          (res.get ⟨i, hi⟩).1.score_unable_to_be_calculated ∧
        ∃ crs, get_cluster_result_generator_from_upper_bound_n_cluster
            score_clusters kmeans_labels_full t upper lower sc dm mcs ck data?
            (seed + (i : ℤ)) mn = Except.ok crs ∧
          _iterate_best_found_cluster crs = Except.ok (res.get ⟨i, hi⟩).1 := by
  obtain ⟨res, hres, hlen, hspec⟩ := run_seed_iterations_spec score_clusters
    kmeans_labels_full t upper lower sc dm mcs ck data? seed mn herr
    (List.range n_iter_cluster)
  refine ⟨res, hres, by simpa using hlen, ?_⟩
  intro i hi
  have hi' : i < (List.range n_iter_cluster).length := by
    rw [← hlen]; exact hi
  have h := hspec i hi hi'
  simpa [List.get_range] using h

/-- Witness for C7: two seed iterations over empty error-free data produce
exactly two trace elements with iterations 1 and 2 and seeds 7 and 8. -/
theorem multi_seed_driver_trace_witness :
    ∃ res, _get_all_cluster_result_generator
        (fun _ _ _ _ _ _ _ => (0, false)) (fun _ _ _ => [])
        { err_msg := none, fpca_result := [], concatenated_loadshapes := [] }
        5 2 ("silhouette") ("euclidean") 2 ("") (some []) 7 2 200 =
        Except.ok res ∧
      res.length = 2 ∧
      ∀ i : ℕ, ∀ hi : i < res.length,
        (res.get ⟨i, hi⟩).2.iteration = i + 1 ∧
        (res.get ⟨i, hi⟩).2.seed = 7 + (i : ℤ) ∧
        (res.get ⟨i, hi⟩).2.n_clusters = (res.get ⟨i, hi⟩).1.n_clusters ∧
        (res.get ⟨i, hi⟩).2.score = (res.get ⟨i, hi⟩).1.score ∧
        (res.get ⟨i, hi⟩).2.score_unable_to_be_calculated =
          (res.get ⟨i, hi⟩).1.score_unable_to_be_calculated ∧
        ∃ crs, get_cluster_result_generator_from_upper_bound_n_cluster
            (fun _ _ _ _ _ _ _ => (0, false)) (fun _ _ _ => [])
            { err_msg := none, fpca_result := [], concatenated_loadshapes := [] }
            5 2 ("silhouette") ("euclidean") 2 ("") (some [])
            (7 + (i : ℤ)) 200 = Except.ok crs ∧
          _iterate_best_found_cluster crs = Except.ok (res.get ⟨i, hi⟩).1 :=
  multi_seed_driver_trace (fun _ _ _ _ _ _ _ => (0, false)) (fun _ _ _ => [])
    { err_msg := none, fpca_result := [], concatenated_loadshapes := [] }
    5 2 ("silhouette") ("euclidean") 2 ("") (some []) 7 2 200 rfl
    (by decide)

/-! ### Claims about the public entry point -/

lemma run_seed_iterations_length (score_clusters : ScoreClusters)
    (kmeans_labels_full : KMeansLabels) (t : InitialPoolLoadshapeTransform)
    (upper lower : ℕ) (sc dm : String) (mcs : ℕ) (ck : String)
    (data? : Option DataMatrix) (seed : ℤ) (mn : ℕ) :
    ∀ (incs : List ℕ) (res : List (ClusterResultIntermediate × ClusterScoreElement)),
      run_seed_iterations score_clusters kmeans_labels_full t upper lower sc
        dm mcs ck data? seed mn incs = Except.ok res → res.length = incs.length
  | [], res, h => by
    injection h with h
    rw [← h]
    rfl
  | inc :: rest, res, h => by
    simp only [run_seed_iterations] at h
    split at h
    · exact Except.noConfusion h
    split at h
    · exact Except.noConfusion h
    split at h
    · exact Except.noConfusion h
    rename_i tail htail
    injection h with h
    rw [← h]
    simp only [List.length_cons]
    rw [run_seed_iterations_length score_clusters kmeans_labels_full t upper
      lower sc dm mcs ck data? seed mn rest tail htail]

lemma get_best_unfold (score_clusters : ScoreClusters)
    (kmeans_labels_full : KMeansLabels) (get_cluster_bounds : GetClusterBounds)
    (t : InitialPoolLoadshapeTransform) (mcs ncu ncl : ℕ) (sc dm ck : String)
    (seed : ℤ) (n_iter mn : ℕ) :
    get_best_scored_cluster_result score_clusters kmeans_labels_full
        get_cluster_bounds t mcs ncu ncl sc dm ck seed n_iter mn =
      match _get_all_cluster_result_generator score_clusters kmeans_labels_full
          t (get_cluster_bounds (unstack_fpca t.fpca_result) mcs ncu ncl).2
          (get_cluster_bounds (unstack_fpca t.fpca_result) mcs ncu ncl).1 sc dm
          mcs ck (some (unstack_fpca t.fpca_result)) seed n_iter mn with
      | Except.error e => Except.error e
      | Except.ok pairs =>
        match pairs.foldl running_best none with
        | none => Except.error ("best_scored_cluster is None. This should only ever occur if somehow no clustering was performed. Likely settings/logic error.")
        | some b => Except.ok (b, pairs.map Prod.snd) := rfl

lemma get_best_scored_ok_elements_length (score_clusters : ScoreClusters)
    (kmeans_labels_full : KMeansLabels) (get_cluster_bounds : GetClusterBounds)
    (t : InitialPoolLoadshapeTransform) (mcs ncu ncl : ℕ) (sc dm ck : String)
    (seed : ℤ) (n_iter mn : ℕ) (b : ClusterResultIntermediate)
    (elems : List ClusterScoreElement)
    (h : get_best_scored_cluster_result score_clusters kmeans_labels_full
      get_cluster_bounds t mcs ncu ncl sc dm ck seed n_iter mn =
        Except.ok (b, elems)) :
    elems.length = n_iter := by
  rw [get_best_unfold] at h
  split at h
  · exact Except.noConfusion h
  rename_i pairs hpairs
  split at h
  · exact Except.noConfusion h
  rename_i bb hbb
  injection h with h
  have helems : elems = pairs.map Prod.snd :=
    ((Prod.mk.injEq _ _ _ _).mp h).2.symm
  have hlen := run_seed_iterations_length score_clusters kmeans_labels_full
    t (get_cluster_bounds (unstack_fpca t.fpca_result) mcs ncu ncl).2
    (get_cluster_bounds (unstack_fpca t.fpca_result) mcs ncu ncl).1 sc dm
    mcs ck (some (unstack_fpca t.fpca_result)) seed mn
    (List.range n_iter) pairs hpairs
  rw [helems, List.length_map, hlen, List.length_range]

lemma from_cluster_result_iter_scores (aggOf : String → List ℚ → ℚ)
    (cr : ClusterResultIntermediate) (elems : List ClusterScoreElement)
    (at_ dm : String) :
    (ClusterResult.from_cluster_result_and_agg_type aggOf cr elems at_ dm).iter_scores =
      elems := by
  unfold ClusterResult.from_cluster_result_and_agg_type
  split_ifs <;> rfl

lemma from_comparison_unfold (score_clusters : ScoreClusters)
    (kmeans_labels_full : KMeansLabels) (get_cluster_bounds : GetClusterBounds)
    (from_full_cp_ls_df : List (Nat × List ℚ) → ℚ → InitialPoolLoadshapeTransform)
    (aggOf : String → List ℚ → ℚ) (df_cp_ls : List (Nat × List ℚ))
    (s : Settings) :
    ClusterResult.from_comparison_pool_loadshapes_and_settings score_clusters
        kmeans_labels_full get_cluster_bounds from_full_cp_ls_df aggOf
        df_cp_ls s =
      match get_best_scored_cluster_result score_clusters kmeans_labels_full
          get_cluster_bounds (from_full_cp_ls_df df_cp_ls s.fpca_min_variance_ratio)
          s.min_cluster_size s.num_cluster_bound_upper s.num_cluster_bound_lower
          s.score_choice s.dist_metric ("") s.seed 1
          s.max_non_outlier_cluster_count with
      | Except.error e => Except.error e
      | Except.ok bs =>
        Except.ok (ClusterResult.from_cluster_result_and_agg_type aggOf bs.1
          bs.2 s.agg_type s.dist_metric) := rfl

/-- C5 is a code bug: the public entry point
`ClusterResult.from_comparison_pool_loadshapes_and_settings` passes the
literal `1` for `n_iter_cluster` instead of the configured
`s.n_iter_cluster`, so even with `n_iter_cluster = 3` in the settings the
resulting `iter_scores` trace has exactly one element, not three. -/
theorem entry_point_ignores_configured_n_iter_cluster
    (score_clusters : ScoreClusters) (kmeans_labels_full : KMeansLabels)
    (get_cluster_bounds : GetClusterBounds)
    (from_full_cp_ls_df : List (Nat × List ℚ) → ℚ → InitialPoolLoadshapeTransform)
    (aggOf : String → List ℚ → ℚ) (df_cp_ls : List (Nat × List ℚ))
    (s : Settings) (r : ClusterResult) (hs : s.n_iter_cluster = 3)
    (hok : ClusterResult.from_comparison_pool_loadshapes_and_settings
      score_clusters kmeans_labels_full get_cluster_bounds from_full_cp_ls_df
      aggOf df_cp_ls s = Except.ok r) :
    r.iter_scores.length = 1 ∧ r.iter_scores.length ≠ s.n_iter_cluster := by
  rw [from_comparison_unfold] at hok
  split at hok
  · exact Except.noConfusion hok
  rename_i bs hbs
  injection hok with hok
  have hlen : bs.2.length = 1 :=
    get_best_scored_ok_elements_length score_clusters kmeans_labels_full
      get_cluster_bounds (from_full_cp_ls_df df_cp_ls s.fpca_min_variance_ratio)
      s.min_cluster_size s.num_cluster_bound_upper s.num_cluster_bound_lower
      s.score_choice s.dist_metric ("") s.seed 1
      s.max_non_outlier_cluster_count bs.1 bs.2 hbs
  rw [← hok, from_cluster_result_iter_scores, hlen, hs]
  exact ⟨rfl, by decide⟩

/-- Settings with `n_iter_cluster = 3`, the failing input of C5. -/
def settings_three_iters : Settings :=
  { min_cluster_size := 2
    num_cluster_bound_lower := 2
    num_cluster_bound_upper := 5
    score_choice := "silhouette"
    dist_metric := "euclidean"
    agg_type := "mean"
    seed := 7
    n_iter_cluster := 3
    max_non_outlier_cluster_count := 200
    fpca_min_variance_ratio := 1 }

/-- Witness for C5: running the entry point on empty pool loadshapes with
`n_iter_cluster = 3` configured still yields a one-element trace. -/
theorem entry_point_ignores_configured_n_iter_cluster_witness :
    settings_three_iters.n_iter_cluster = 3 ∧
    ∃ r, ClusterResult.from_comparison_pool_loadshapes_and_settings
        (fun _ _ _ _ _ _ _ => (0, false)) (fun _ _ _ => [])
        (fun _ _ _ _ => (2, 5))
        (fun _ _ => { err_msg := none, fpca_result := [], concatenated_loadshapes := [] })
        (fun _ _ => 0) [] settings_three_iters = Except.ok r ∧
      r.iter_scores.length = 1 := by
  refine ⟨rfl, ?_⟩
  have hsome : (ClusterResult.from_comparison_pool_loadshapes_and_settings
      (fun _ _ _ _ _ _ _ => (0, false)) (fun _ _ _ => [])
      (fun _ _ _ _ => (2, 5))
      (fun _ _ => { err_msg := none, fpca_result := [], concatenated_loadshapes := [] })
      (fun _ _ => 0) [] settings_three_iters).isOk = true := rfl
  cases h : ClusterResult.from_comparison_pool_loadshapes_and_settings
      (fun _ _ _ _ _ _ _ => (0, false)) (fun _ _ _ => [])
      (fun _ _ _ _ => (2, 5))
      (fun _ _ => { err_msg := none, fpca_result := [], concatenated_loadshapes := [] })
      (fun _ _ => 0) [] settings_three_iters with
  | error e => rw [h] at hsome; exact Bool.noConfusion hsome
  | ok r =>
    exact ⟨r, rfl, (entry_point_ignores_configured_n_iter_cluster
      (fun _ _ _ _ _ _ _ => (0, false)) (fun _ _ _ => [])
      (fun _ _ _ _ => (2, 5))
      (fun _ _ => { err_msg := none, fpca_result := [], concatenated_loadshapes := [] })
      (fun _ _ => 0) [] settings_three_iters r rfl h).1⟩

/-! ### Claims about the cluster aggregator -/

lemma get_cluster_ls_eq (df_cp_ls : List (Nat × List ℚ))
    (cluster_df : List (Nat × ℤ)) (agg : List ℚ → ℚ) :
    _get_cluster_ls df_cp_ls cluster_df agg =
      (((cluster_ls_rows df_cp_ls cluster_df).map Prod.fst).dedup.map fun k =>
        (k, agg (((cluster_ls_rows df_cp_ls cluster_df).filter
          fun r => r.1 == k).map Prod.snd))).filter
        fun g => decide (0 < g.1.1) := rfl

lemma cluster_ls_rows_cluster_mem (df_cp_ls : List (Nat × List ℚ))
    (cluster_df : List (Nat × ℤ)) (row : (ℤ × ℕ) × ℚ)
    (h : row ∈ cluster_ls_rows df_cp_ls cluster_df) :
    ∃ p ∈ cluster_df, row.1.1 = p.2 := by
  obtain ⟨p, hp, hrow⟩ := List.mem_flatMap.mp h
  refine ⟨p, hp, ?_⟩
  cases hfind : df_cp_ls.find? (fun q => q.1 == p.1) with
  | none => rw [hfind] at hrow; exact absurd hrow (List.not_mem_nil _)
  | some q =>
    rw [hfind] at hrow
    obtain ⟨hv, _, hhv⟩ := List.mem_map.mp hrow
    rw [← hhv]

lemma cluster_ls_rows_exists (df_cp_ls : List (Nat × List ℚ))
    (cluster_df : List (Nat × ℤ))
    (hcover : ∀ p ∈ cluster_df, ∃ q ∈ df_cp_ls, q.1 = p.1)
    (hnonempty : ∀ q ∈ df_cp_ls, q.2 ≠ [])
    (idc : Nat × ℤ) (hid : idc ∈ cluster_df) :
    ∃ v, ((idc.2, 0), v) ∈ cluster_ls_rows df_cp_ls cluster_df := by
  obtain ⟨q, hq, hq1⟩ := hcover idc hid
  have hsome : (df_cp_ls.find? fun q' => q'.1 == idc.1).isSome = true :=
    List.find?_isSome.mpr ⟨q, hq, by simp [hq1]⟩
  cases hfind : df_cp_ls.find? (fun q' => q'.1 == idc.1) with
  | none => rw [hfind] at hsome; exact Bool.noConfusion hsome
  | some q' =>
    have hq'mem : q' ∈ df_cp_ls := List.mem_of_find?_eq_some hfind
    cases hval : q'.2 with
    | nil => exact absurd hval (hnonempty q' hq'mem)
    | cons v vs =>
      refine ⟨v, List.mem_flatMap.mpr ⟨idc, hid, ?_⟩⟩
      rw [hfind]
      apply List.mem_map.mpr
      refine ⟨(0, v), ?_, rfl⟩
      rw [hval, List.enum_cons]
      exact List.mem_cons_self _ _

/-- C8: the set of per-cluster representative load shapes computed by
`_get_cluster_ls` never contains an entry for the outlier cluster id 0,
and (provided every meter of the cluster table has a non-empty load shape
in the pool table) contains an entry exactly for every cluster id strictly
greater than 0 present in the finalized cluster table. -/
theorem cluster_ls_excludes_outlier_and_covers_clusters
    (df_cp_ls : List (Nat × List ℚ)) (cluster_df : List (Nat × ℤ))
    (agg : List ℚ → ℚ)
    (hcover : ∀ p ∈ cluster_df, ∃ q ∈ df_cp_ls, q.1 = p.1)
    (hnonempty : ∀ q ∈ df_cp_ls, q.2 ≠ []) :
    (∀ e ∈ _get_cluster_ls df_cp_ls cluster_df agg, 0 < e.1.1) ∧
    ∀ c : ℤ, (∃ e ∈ _get_cluster_ls df_cp_ls cluster_df agg, e.1.1 = c) ↔
      (0 < c ∧ ∃ id : Nat, (id, c) ∈ cluster_df) := by
  constructor
  · intro e he
    rw [get_cluster_ls_eq] at he
    have := (List.mem_filter.mp he).2
    simpa using this
  · intro c
    constructor
    · rintro ⟨e, he, hec⟩
      rw [get_cluster_ls_eq] at he
      obtain ⟨hegrp, hepos⟩ := List.mem_filter.mp he
      have hpos : 0 < e.1.1 := by simpa using hepos
      obtain ⟨k, hk, hke⟩ := List.mem_map.mp hegrp
      have hk1 : k = e.1 := by rw [← hke]
      have hkmem : k ∈ (cluster_ls_rows df_cp_ls cluster_df).map Prod.fst :=
        List.mem_dedup.mp hk
      obtain ⟨row, hrow, hrowk⟩ := List.mem_map.mp hkmem
      obtain ⟨p, hp, hpc⟩ :=
        cluster_ls_rows_cluster_mem df_cp_ls cluster_df row hrow
      refine ⟨hec ▸ hpos, p.1, ?_⟩
      have : p.2 = c := by rw [← hpc, hrowk, hk1, hec]
      rw [← this]
      exact hp
    · rintro ⟨hpos, id, hid⟩
      obtain ⟨v, hv⟩ := cluster_ls_rows_exists df_cp_ls cluster_df hcover
        hnonempty (id, c) hid
      have hkey : (c, 0) ∈ (cluster_ls_rows df_cp_ls cluster_df).map Prod.fst :=
        List.mem_map.mpr ⟨((c, 0), v), hv, rfl⟩
      have hkeyd : (c, 0) ∈ ((cluster_ls_rows df_cp_ls cluster_df).map
          Prod.fst).dedup := List.mem_dedup.mpr hkey
      refine ⟨((c, 0), agg (((cluster_ls_rows df_cp_ls cluster_df).filter
        fun r => r.1 == (c, 0)).map Prod.snd)), ?_, rfl⟩
      rw [get_cluster_ls_eq]
      apply List.mem_filter.mpr
      refine ⟨List.mem_map.mpr ⟨(c, 0), hkeyd, rfl⟩, by simpa using hpos⟩

/-- Witness for C8 on a concrete table: meters 1, 2, 3 in clusters 0, 1, 2
with singleton load shapes; the representative set covers exactly clusters
1 and 2 and excludes the outlier cluster 0. -/
theorem cluster_ls_excludes_outlier_witness :
    (∀ e ∈ _get_cluster_ls [(1, [5]), (2, [6]), (3, [7])]
        [(1, 0), (2, 1), (3, 2)] (fun xs => xs.headD 0), 0 < e.1.1) ∧
    ∀ c : ℤ, (∃ e ∈ _get_cluster_ls [(1, [5]), (2, [6]), (3, [7])]
        [(1, 0), (2, 1), (3, 2)] (fun xs => xs.headD 0), e.1.1 = c) ↔
      (0 < c ∧ ∃ id : Nat, (id, c) ∈ [((1 : Nat), (0 : ℤ)), (2, 1), (3, 2)]) :=
  cluster_ls_excludes_outlier_and_covers_clusters
    [(1, [5]), (2, [6]), (3, [7])] [(1, 0), (2, 1), (3, 2)]
    (fun xs => xs.headD 0) (by decide) (by decide)

/-! ### Determinism -/

/-- C9: for fixed input, seed and configuration, two runs of the
hierarchical label generator and of the full search driver produce
identical label dictionaries and identical results.  The embedding models
the overridden `BisectingKMeans` as a function of `(data, n_clusters,
seed)` — per the spec all of its randomness is derived from the single
`random_state=seed` — so any two runs whose inputs agree componentwise
agree on every intermediate label vector and every score. -/
theorem label_generator_and_driver_deterministic
    (kmeans_labels_full : KMeansLabels) (score_clusters : ScoreClusters)
    (get_cluster_bounds : GetClusterBounds) (data data' : DataMatrix)
    (n n' : ℕ) (seed seed' : ℤ) (t t' : InitialPoolLoadshapeTransform)
    (mcs mcs' ncu ncu' ncl ncl' : ℕ) (sc sc' dm dm' ck ck' : String)
    (ni ni' mn mn' : ℕ) (hdata : data = data') (hn : n = n')
    (hseed : seed = seed') (ht : t = t') (hmcs : mcs = mcs')
    (hncu : ncu = ncu') (hncl : ncl = ncl') (hsc : sc = sc')
    (hdm : dm = dm') (hck : ck = ck') (hni : ni = ni') (hmn : mn = mn') :
    _get_bisecting_kmeans_cluster_label_dict kmeans_labels_full data n seed =
      _get_bisecting_kmeans_cluster_label_dict kmeans_labels_full data' n' seed' ∧
    get_best_scored_cluster_result score_clusters kmeans_labels_full
        get_cluster_bounds t mcs ncu ncl sc dm ck seed ni mn =
      get_best_scored_cluster_result score_clusters kmeans_labels_full
        get_cluster_bounds t' mcs' ncu' ncl' sc' dm' ck' seed' ni' mn' := by
  subst hdata hn hseed ht hmcs hncu hncl hsc hdm hck hni hmn
  exact ⟨rfl, rfl⟩

/-- Witness for C9 at a concrete input: two runs over the same one-point
data set, seed 3 and identical configuration coincide. -/
theorem label_generator_and_driver_deterministic_witness :
    _get_bisecting_kmeans_cluster_label_dict (fun _ _ _ => [(2, [0, 1])])
        [[1], [2]] 2 3 =
      _get_bisecting_kmeans_cluster_label_dict (fun _ _ _ => [(2, [0, 1])])
        [[1], [2]] 2 3 ∧
    get_best_scored_cluster_result (fun _ _ _ _ _ _ _ => (0, false))
        (fun _ _ _ => [(2, [0, 1])]) (fun _ _ _ _ => (2, 2))
        { err_msg := none, fpca_result := [(1, [1]), (2, [2])],
          concatenated_loadshapes := [] } 1 2 2 ("silhouette") ("euclidean")
        ("") 3 1 200 =
      get_best_scored_cluster_result (fun _ _ _ _ _ _ _ => (0, false))
        (fun _ _ _ => [(2, [0, 1])]) (fun _ _ _ _ => (2, 2))
        { err_msg := none, fpca_result := [(1, [1]), (2, [2])],
          concatenated_loadshapes := [] } 1 2 2 ("silhouette") ("euclidean")
        ("") 3 1 200 :=
  label_generator_and_driver_deterministic (fun _ _ _ => [(2, [0, 1])])
    (fun _ _ _ _ _ _ _ => (0, false)) (fun _ _ _ _ => (2, 2))
    [[1], [2]] [[1], [2]] 2 2 3 3
    { err_msg := none, fpca_result := [(1, [1]), (2, [2])],
      concatenated_loadshapes := [] }
    { err_msg := none, fpca_result := [(1, [1]), (2, [2])],
      concatenated_loadshapes := [] }
    1 1 2 2 2 2 ("silhouette") ("silhouette") ("euclidean") ("euclidean")
    ("") ("") 1 1 200 200 rfl rfl rfl rfl rfl rfl rfl rfl rfl rfl rfl rfl
